import Mathlib

/-!
# Verification of the signal scoring engine (`calculate_signal` in `app.py`)

The source computes, from a map of per-instrument price frames, a signed
integer score and an ordered list of reason strings.  Price closes are
finite floating-point numbers; intermediate indicator values (rolling
means, RSI) follow IEEE-754 semantics where NaN and infinities arise
(`rolling(n).mean()` yields NaN on windows shorter than `n`, `x / 0`
yields ±Inf or NaN, and every comparison against NaN is false).  We model
float values with `PVal`: a rational carrier extended with `nan`, `pinf`
and `ninf`, and operations mirroring IEEE behaviour on those special
values.
-/

/-- A floating-point value as used by the engine: a finite rational, one of
the two infinities, or NaN. -/
inductive PVal where
  | nan : PVal
  | pinf : PVal
  | ninf : PVal
  | fin : ℚ → PVal
deriving DecidableEq

/-- IEEE negation. -/
def PVal.neg : PVal → PVal
  | .nan => .nan
  | .pinf => .ninf
  | .ninf => .pinf
  | .fin a => .fin (-a)

/-- IEEE addition: NaN is absorbing, opposite infinities give NaN. -/
def PVal.add : PVal → PVal → PVal
  | .nan, _ => .nan
  | _, .nan => .nan
  | .pinf, .ninf => .nan
  | .ninf, .pinf => .nan
  | .pinf, _ => .pinf
  | _, .pinf => .pinf
  | .ninf, _ => .ninf
  | _, .ninf => .ninf
  | .fin a, .fin b => .fin (a + b)

/-- IEEE subtraction. -/
def PVal.sub : PVal → PVal → PVal
  | .nan, _ => .nan
  | _, .nan => .nan
  | .pinf, .pinf => .nan
  | .ninf, .ninf => .nan
  | .pinf, _ => .pinf
  | _, .ninf => .pinf
  | .ninf, _ => .ninf
  | _, .pinf => .ninf
  | .fin a, .fin b => .fin (a - b)

/-- IEEE division with numpy's conventions for division by zero:
`a / 0` is `+Inf` for `a > 0`, `-Inf` for `a < 0` and NaN for `a = 0`. -/
def PVal.div : PVal → PVal → PVal
  | .nan, _ => .nan
  | _, .nan => .nan
  | .pinf, .pinf => .nan
  | .pinf, .ninf => .nan
  | .ninf, .pinf => .nan
  | .ninf, .ninf => .nan
  | .pinf, .fin b => if b < 0 then .ninf else .pinf
  | .ninf, .fin b => if b < 0 then .pinf else .ninf
  | .fin _, .pinf => .fin 0
  | .fin _, .ninf => .fin 0
  | .fin a, .fin b =>
      if b = 0 then (if 0 < a then .pinf else if a < 0 then .ninf else .nan)
      else .fin (a / b)

/-- IEEE strict less-than: any comparison involving NaN is false. -/
def PVal.lt : PVal → PVal → Bool
  | .fin a, .fin b => decide (a < b)
  | .fin _, .pinf => true
  | .ninf, .fin _ => true
  | .ninf, .pinf => true
  | _, _ => false

/-- IEEE strict greater-than, `a > b` is `b < a` (false whenever NaN is
involved, matching Python float comparisons). -/
def PVal.gt (a b : PVal) : Bool := PVal.lt b a

/-- Sum of a list of float values (IEEE semantics via `PVal.add`). -/
def psum (l : List PVal) : PVal := l.foldr PVal.add (PVal.fin 0)

/-- Model of `series.rolling(k).mean().iloc[-1]`: the mean of the last
`k` values,
NaN when fewer than `k` samples are available (pandas' default
`min_periods`). -/
def rollingMeanLast (l : List PVal) (k : ℕ) : PVal :=
  if l.length < k then PVal.nan
  else PVal.div (psum (l.drop (l.length - k))) (PVal.fin k)

/-- A price frame for one instrument: the `Close` column (finite closes),
plus whatever other columns the data frame carries (never read by the
engine). -/
structure Frame where
  close : List ℚ
  extra : List (String × List ℚ)
deriving DecidableEq

/-- The input map of `calculate_signal`: each of the five monitored
instruments may be present or absent. -/
structure DataMap where
  gold : Option Frame
  dxy : Option Frame
  tnx : Option Frame
  vix : Option Frame
  spx : Option Frame
deriving DecidableEq

/-- The pandas message raised by a positional indexer on a too-short
series. -/
def outOfBoundsMsg : String := "single positional indexer is out-of-bounds"

/-- Model of `series.iloc[-1]`: the latest close; positional-indexer
error on an empty series. -/
def ilocLast (l : List ℚ) : Except String ℚ :=
  match l.getLast? with
  | some x => Except.ok x
  | none => Except.error outOfBoundsMsg

/-- Model of `series.iloc[0]`: the first close; error on an empty series. -/
def ilocFirst (l : List ℚ) : Except String ℚ :=
  match l.head? with
  | some x => Except.ok x
  | none => Except.error outOfBoundsMsg

/-- Model of `series.iloc[-k]` for `k ≥ 1`: the close `k - 1` samples
before the latest; error when fewer than `k` samples exist. -/
def ilocFromEnd (l : List ℚ) (k : ℕ) : Except String ℚ :=
  if 0 < k ∧ k ≤ l.length then
    match l.get? (l.length - k) with
    | some x => Except.ok x
    | none => Except.error outOfBoundsMsg
  else Except.error outOfBoundsMsg

/-- Model of `series.diff()`: successive close-to-close differences, NaN
in the first position. -/
def diffList (l : List ℚ) : List PVal :=
  match l with
  | [] => []
  | x :: xs => PVal.nan :: List.zipWith (fun a b => PVal.fin (b - a)) (x :: xs) xs

/-- Model of `delta.where(delta > 0, 0)`: keep positive differences, replace the
rest (including the leading NaN, which compares false) by 0. -/
def gainList (l : List ℚ) : List PVal :=
  (diffList l).map (fun d => if PVal.gt d (PVal.fin 0) then d else PVal.fin 0)

/-- Model of `-delta.where(delta < 0, 0)`: keep negative differences, replace the
rest by 0, then negate. -/
def lossList (l : List ℚ) : List PVal :=
  ((diffList l).map (fun d => if PVal.lt d (PVal.fin 0) then d else PVal.fin 0)).map PVal.neg

/-- Model of `gain.rolling(14).mean().iloc[-1]`: the average gain over the last
14-sample window. -/
def avgGainLast (l : List ℚ) : PVal := rollingMeanLast (gainList l) 14

/-- Model of `loss.rolling(14).mean().iloc[-1]`: the average loss over the last
14-sample window. -/
def avgLossLast (l : List ℚ) : PVal := rollingMeanLast (lossList l) 14

/-- Model of `rsi = 100 - (100 / (1 + rs)).iloc[-1]` with `rs = gain / loss`
(elementwise, so the last entry of `rs` is the ratio of the last rolling
averages). -/
def rsiLast (l : List ℚ) : PVal :=
  PVal.sub (PVal.fin 100)
    (PVal.div (PVal.fin 100)
      (PVal.add (PVal.fin 1) (PVal.div (avgGainLast l) (avgLossLast l))))

/-- Model of `gold_df['Close'].rolling(50).mean().iloc[-1]`: the 50-hour moving
average, NaN when fewer than 50 samples exist. -/
def ma50Last (l : List ℚ) : PVal := rollingMeanLast (l.map PVal.fin) 50

def reasonBullish : String := "📈 技术面：金价位于50小时均线上方 (看涨)"
def reasonBearish : String := "📉 技术面：金价位于50小时均线下方 (看跌)"
def reasonOversold : String := "⚡ RSI指标：进入超卖区间 (反弹概率大)"
def reasonOverbought : String := "⚠️ RSI指标：进入超买区间 (回调风险大)"
def reasonDollarWeak : String := "💵 宏观面：美元指数日内走弱 (利好黄金)"
def reasonDollarStrong : String := "💵 宏观面：美元指数日内走强 (利空黄金)"
def reasonVixFear : String := "💣 情绪面：市场恐慌指数(VIX)较高 (避险资金流入)"
def reasonVixCalm : String := "🕊️ 情绪面：市场极度贪婪/平静 (避险需求低)"

/-- Section 1 of `calculate_signal`: gold technicals (50-hour moving
average and RSI), contributing a score delta and reasons. -/
def goldBlock : Option Frame → Except String (ℤ × List String)
  | none => Except.ok (0, [])
  | some f =>
    match ilocLast f.close with
    | Except.error e => Except.error e
    | Except.ok current =>
      let ma := ma50Last f.close
      let rsi := rsiLast f.close
      let p1 : ℤ × List String :=
        if PVal.gt (PVal.fin current) ma then (2, [reasonBullish])
        else (-2, [reasonBearish])
      let p2 : ℤ × List String :=
        if PVal.lt rsi (PVal.fin 30) then (1, [reasonOversold])
        else if PVal.gt rsi (PVal.fin 70) then (-1, [reasonOverbought])
        else (0, [])
      Except.ok (p1.1 + p2.1, p1.2 ++ p2.2)

/-- Section 2 of `calculate_signal`: the dollar index compared with its
value 24 rows from the end (`iloc[-24]`), falling back to the first row
when the series has at most 24 samples. -/
def dxyBlock : Option Frame → Except String (ℤ × List String)
  | none => Except.ok (0, [])
  | some f =>
    match ilocLast f.close with
    | Except.error e => Except.error e
    | Except.ok now =>
      match (if f.close.length > 24 then ilocFromEnd f.close 24 else ilocFirst f.close) with
      | Except.error e => Except.error e
      | Except.ok prev =>
        if now < prev then Except.ok (2, [reasonDollarWeak])
        else Except.ok (-2, [reasonDollarStrong])

/-- Section 3 of `calculate_signal`: the VIX thresholds (strictly above
20, strictly below 13, dead zone in between). -/
def vixBlock : Option Frame → Except String (ℤ × List String)
  | none => Except.ok (0, [])
  | some f =>
    match ilocLast f.close with
    | Except.error e => Except.error e
    | Except.ok now =>
      if now > 20 then Except.ok (2, [reasonVixFear])
      else if now < 13 then Except.ok (-1, [reasonVixCalm])
      else Except.ok (0, [])

/-- Model of `calculate_signal(data)`: score starts at 0, the three instrument
sections run in order, each adding its delta to the score and appending
its reasons; a pandas exception in any section propagates. -/
def calculate_signal (data : DataMap) : Except String (ℤ × List String) :=
  match goldBlock data.gold with
  | Except.error e => Except.error e
  | Except.ok p1 =>
    match dxyBlock data.dxy with
    | Except.error e => Except.error e
    | Except.ok p2 =>
      match vixBlock data.vix with
      | Except.error e => Except.error e
      | Except.ok p3 => Except.ok (p1.1 + p2.1 + p3.1, p1.2 ++ p2.2 ++ p3.2)

deriving instance DecidableEq for Except

unseal Rat.add Rat.sub Rat.mul Rat.inv

set_option maxRecDepth 4000

/-- The rule table's score delta for a given reason string (0 for a string
that is not one of the eight rule reasons). -/
def reasonDelta (r : String) : ℤ :=
  if r = reasonBullish then 2
  else if r = reasonBearish then -2
  else if r = reasonOversold then 1
  else if r = reasonOverbought then -1
  else if r = reasonDollarWeak then 2
  else if r = reasonDollarStrong then -2
  else if r = reasonVixFear then 2
  else if r = reasonVixCalm then -1
  else 0

/-- The gold section's fired rules as (scoreDelta, reason) pairs: same
branches as `goldBlock`, collecting the rule-table entries instead of
accumulating. -/
def goldPairs : Option Frame → Except String (List (ℤ × String))
  | none => Except.ok []
  | some f =>
    match ilocLast f.close with
    | Except.error e => Except.error e
    | Except.ok current =>
      let ma := ma50Last f.close
      let rsi := rsiLast f.close
      let p1 : List (ℤ × String) :=
        if PVal.gt (PVal.fin current) ma then [(2, reasonBullish)]
        else [(-2, reasonBearish)]
      let p2 : List (ℤ × String) :=
        if PVal.lt rsi (PVal.fin 30) then [(1, reasonOversold)]
        else if PVal.gt rsi (PVal.fin 70) then [(-1, reasonOverbought)]
        else []
      Except.ok (p1 ++ p2)

/-- The dollar-index section's fired rules as (scoreDelta, reason) pairs. -/
def dxyPairs : Option Frame → Except String (List (ℤ × String))
  | none => Except.ok []
  | some f =>
    match ilocLast f.close with
    | Except.error e => Except.error e
    | Except.ok now =>
      match (if f.close.length > 24 then ilocFromEnd f.close 24 else ilocFirst f.close) with
      | Except.error e => Except.error e
      | Except.ok prev =>
        if now < prev then Except.ok [(2, reasonDollarWeak)]
        else Except.ok [(-2, reasonDollarStrong)]

/-- The VIX section's fired rules as (scoreDelta, reason) pairs. -/
def vixPairs : Option Frame → Except String (List (ℤ × String))
  | none => Except.ok []
  | some f =>
    match ilocLast f.close with
    | Except.error e => Except.error e
    | Except.ok now =>
      if now > 20 then Except.ok [(2, reasonVixFear)]
      else if now < 13 then Except.ok [(-1, reasonVixCalm)]
      else Except.ok []

/-- All rules fired by one evaluation, in rule-table order, each as its
(scoreDelta, reason) pair. -/
def firedRules (d : DataMap) : Except String (List (ℤ × String)) :=
  match goldPairs d.gold with
  | Except.error e => Except.error e
  | Except.ok l1 =>
    match dxyPairs d.dxy with
    | Except.error e => Except.error e
    | Except.ok l2 =>
      match vixPairs d.vix with
      | Except.error e => Except.error e
      | Except.ok l3 => Except.ok (l1 ++ l2 ++ l3)

/-- Collapse a list of (scoreDelta, reason) pairs into a section result:
the sum of the deltas and the reasons in order. -/
def pairSum (ps : List (ℤ × String)) : ℤ × List String :=
  ((ps.map Prod.fst).sum, ps.map Prod.snd)

/-- The rule table: the eight (scoreDelta, reason) entries of the engine. -/
def ruleTable : List (ℤ × String) :=
  [(2, reasonBullish), (-2, reasonBearish), (1, reasonOversold), (-1, reasonOverbought),
   (2, reasonDollarWeak), (-2, reasonDollarStrong), (2, reasonVixFear), (-1, reasonVixCalm)]

/-- A concrete input on which the score reaches +7: gold above its
50-hour moving average with RSI 0, the dollar index weakening, and the
VIX above 20.  This refutes the claimed bound of [-5, +5]. -/
def maxScoreData : DataMap :=
  ⟨some ⟨List.replicate 45 (0 : ℚ) ++
      (100 :: [99, 98, 97, 96, 95, 94, 93, 92, 91, 90, 89, 88, 87, 86]), []⟩,
    some ⟨[105, 100], []⟩, none, some ⟨[25], []⟩, none⟩

/-- A dollar-index series of exactly 25 samples: first close 105, second
close 90, latest close 100. -/
def dxy25Frame : Frame := ⟨105 :: 90 :: (List.replicate 22 (90 : ℚ) ++ [100]), []⟩

/-- A dollar-index series of exactly 24 samples: first 105, latest 100. -/
def dxy24Frame : Frame := ⟨105 :: (List.replicate 22 (90 : ℚ) ++ [100]), []⟩

/-- Two inputs equal on `Close` columns but with different extra columns. -/
def extraColsLeft : DataMap := ⟨none, none, none, some ⟨[16], [("Open", [1])]⟩, none⟩

/-- Same `Close` columns as `extraColsLeft`, different extra columns. -/
def extraColsRight : DataMap := ⟨none, none, none, some ⟨[16], [("Volume", [5, 7])]⟩, none⟩

/-- A successful evaluation decomposes into the three instrument sections:
the score is the sum of the sections' deltas and the reasons are the
sections' reasons in order. -/
theorem calculate_signal_ok_iff (d : DataMap) (p : ℤ × List String) :
    calculate_signal d = Except.ok p ↔
      ∃ pg px pv : ℤ × List String,
        goldBlock d.gold = Except.ok pg ∧ dxyBlock d.dxy = Except.ok px ∧
          vixBlock d.vix = Except.ok pv ∧
          p = (pg.1 + px.1 + pv.1, pg.2 ++ px.2 ++ pv.2) := by
  rw [calculate_signal]
  cases hg : goldBlock d.gold with
  | error e => simp
  | ok pg =>
    cases hx : dxyBlock d.dxy with
    | error e => simp
    | ok px =>
      cases hv : vixBlock d.vix with
      | error e => simp
      | ok pv => simp [eq_comm]

/-- The gold section result is exactly its fired-rule pairs collapsed. -/
theorem goldBlock_map (g : Option Frame) :
    goldBlock g = (goldPairs g).map pairSum := by
  cases g with
  | none => rfl
  | some f =>
    rw [goldBlock, goldPairs]
    cases hl : ilocLast f.close with
    | error e => rfl
    | ok current => simp only; split <;> split <;> first | rfl | (split <;> rfl)

/-- The dollar-index section result is exactly its fired-rule pairs
collapsed. -/
theorem dxyBlock_map (g : Option Frame) :
    dxyBlock g = (dxyPairs g).map pairSum := by
  cases g with
  | none => rfl
  | some f =>
    rw [dxyBlock, dxyPairs]
    cases hl : ilocLast f.close with
    | error e => rfl
    | ok now =>
      cases hp : (if f.close.length > 24 then ilocFromEnd f.close 24 else ilocFirst f.close) with
      | error e => rfl
      | ok prev => simp only; split <;> rfl

/-- The VIX section result is exactly its fired-rule pairs collapsed. -/
theorem vixBlock_map (g : Option Frame) :
    vixBlock g = (vixPairs g).map pairSum := by
  cases g with
  | none => rfl
  | some f =>
    rw [vixBlock, vixPairs]
    cases hl : ilocLast f.close with
    | error e => rfl
    | ok now => simp only; split <;> [rfl; split <;> rfl]

/-- A successful rule-collection run decomposes into the three sections'
pair lists, concatenated in rule-table order. -/
theorem firedRules_ok_iff (d : DataMap) (ps : List (ℤ × String)) :
    firedRules d = Except.ok ps ↔
      ∃ l1 l2 l3, goldPairs d.gold = Except.ok l1 ∧ dxyPairs d.dxy = Except.ok l2 ∧
        vixPairs d.vix = Except.ok l3 ∧ ps = l1 ++ l2 ++ l3 := by
  rw [firedRules]
  cases h1 : goldPairs d.gold with
  | error e => simp
  | ok l1 =>
    cases h2 : dxyPairs d.dxy with
    | error e => simp
    | ok l2 =>
      cases h3 : vixPairs d.vix with
      | error e => simp
      | ok l3 => simp [eq_comm]

/-- The whole evaluation is the collapsed list of all fired rules. -/
theorem calculate_signal_map (d : DataMap) :
    calculate_signal d = (firedRules d).map pairSum := by
  rw [calculate_signal, firedRules]
  rw [goldBlock_map, dxyBlock_map, vixBlock_map]
  cases h1 : goldPairs d.gold with
  | error e => rfl
  | ok l1 =>
    cases h2 : dxyPairs d.dxy with
    | error e => rfl
    | ok l2 =>
      cases h3 : vixPairs d.vix with
      | error e => rfl
      | ok l3 => simp [pairSum, Except.map, add_assoc]

/-- The possible fired-rule lists of the gold section. -/
theorem goldPairs_cases (g : Option Frame) (ps : List (ℤ × String))
    (h : goldPairs g = Except.ok ps) :
    ps = [] ∨ ps = [(2, reasonBullish), (1, reasonOversold)] ∨
      ps = [(2, reasonBullish), (-1, reasonOverbought)] ∨ ps = [(2, reasonBullish)] ∨
      ps = [(-2, reasonBearish), (1, reasonOversold)] ∨
      ps = [(-2, reasonBearish), (-1, reasonOverbought)] ∨ ps = [(-2, reasonBearish)] := by
  cases g with
  | none => rw [goldPairs] at h; cases h; simp
  | some f =>
    rw [goldPairs] at h
    cases hl : ilocLast f.close with
    | error e => rw [hl] at h; cases h
    | ok current =>
      rw [hl] at h
      simp only at h
      split at h <;> split at h <;> cases h <;> simp

/-- The possible fired-rule lists of the dollar-index section. -/
theorem dxyPairs_cases (g : Option Frame) (ps : List (ℤ × String))
    (h : dxyPairs g = Except.ok ps) :
    ps = [] ∨ ps = [(2, reasonDollarWeak)] ∨ ps = [(-2, reasonDollarStrong)] := by
  cases g with
  | none => rw [dxyPairs] at h; cases h; simp
  | some f =>
    rw [dxyPairs] at h
    cases hl : ilocLast f.close with
    | error e => rw [hl] at h; cases h
    | ok now =>
      rw [hl] at h
      cases hp : (if f.close.length > 24 then ilocFromEnd f.close 24 else ilocFirst f.close) with
      | error e => rw [hp] at h; cases h
      | ok prev =>
        rw [hp] at h
        simp only at h
        split at h <;> cases h <;> simp

/-- The possible fired-rule lists of the VIX section. -/
theorem vixPairs_cases (g : Option Frame) (ps : List (ℤ × String))
    (h : vixPairs g = Except.ok ps) :
    ps = [] ∨ ps = [(2, reasonVixFear)] ∨ ps = [(-1, reasonVixCalm)] := by
  cases g with
  | none => rw [vixPairs] at h; cases h; simp
  | some f =>
    rw [vixPairs] at h
    cases hl : ilocLast f.close with
    | error e => rw [hl] at h; cases h
    | ok now =>
      rw [hl] at h
      simp only at h
      split at h <;> [skip; split at h] <;> cases h <;> simp

/-- Every rule-table entry's delta is recovered from its reason string. -/
theorem reasonDelta_table : ∀ q ∈ ruleTable, reasonDelta q.2 = q.1 := by decide

/-- Every pair fired by the gold section is a rule-table entry. -/
theorem goldPairs_sub (g : Option Frame) (ps : List (ℤ × String))
    (h : goldPairs g = Except.ok ps) : ∀ q ∈ ps, q ∈ ruleTable := by
  rcases goldPairs_cases g ps h with h' | h' | h' | h' | h' | h' | h' <;> subst h' <;> decide

/-- Every pair fired by the dollar-index section is a rule-table entry. -/
theorem dxyPairs_sub (g : Option Frame) (ps : List (ℤ × String))
    (h : dxyPairs g = Except.ok ps) : ∀ q ∈ ps, q ∈ ruleTable := by
  rcases dxyPairs_cases g ps h with h' | h' | h' <;> subst h' <;> decide

/-- Every pair fired by the VIX section is a rule-table entry. -/
theorem vixPairs_sub (g : Option Frame) (ps : List (ℤ × String))
    (h : vixPairs g = Except.ok ps) : ∀ q ∈ ps, q ∈ ruleTable := by
  rcases vixPairs_cases g ps h with h' | h' | h' <;> subst h' <;> decide

/-- Recover the delta sum from the reason strings of a pair list whose
entries all come from the rule table. -/
theorem sum_map_reasonDelta (ps : List (ℤ × String)) (h : ∀ q ∈ ps, reasonDelta q.2 = q.1) :
    ((ps.map Prod.snd).map reasonDelta).sum = (ps.map Prod.fst).sum := by
  induction ps with
  | nil => rfl
  | cons a l ih => simp_all

/-- The possible section results of the gold section. -/
theorem goldBlock_cases (g : Option Frame) (p : ℤ × List String)
    (h : goldBlock g = Except.ok p) :
    p = (0, []) ∨ p = (3, [reasonBullish, reasonOversold]) ∨
      p = (1, [reasonBullish, reasonOverbought]) ∨ p = (2, [reasonBullish]) ∨
      p = (-1, [reasonBearish, reasonOversold]) ∨
      p = (-3, [reasonBearish, reasonOverbought]) ∨ p = (-2, [reasonBearish]) := by
  rw [goldBlock_map] at h
  cases hg : goldPairs g with
  | error e => rw [hg] at h; cases h
  | ok ps =>
    rw [hg] at h
    simp only [Except.map] at h
    cases h
    rcases goldPairs_cases g ps hg with h' | h' | h' | h' | h' | h' | h' <;> subst h' <;> decide

/-- The possible section results of the dollar-index section. -/
theorem dxyBlock_cases (g : Option Frame) (p : ℤ × List String)
    (h : dxyBlock g = Except.ok p) :
    p = (0, []) ∨ p = (2, [reasonDollarWeak]) ∨ p = (-2, [reasonDollarStrong]) := by
  rw [dxyBlock_map] at h
  cases hg : dxyPairs g with
  | error e => rw [hg] at h; cases h
  | ok ps =>
    rw [hg] at h
    simp only [Except.map] at h
    cases h
    rcases dxyPairs_cases g ps hg with h' | h' | h' <;> subst h' <;> decide

/-- The possible section results of the VIX section. -/
theorem vixBlock_cases (g : Option Frame) (p : ℤ × List String)
    (h : vixBlock g = Except.ok p) :
    p = (0, []) ∨ p = (2, [reasonVixFear]) ∨ p = (-1, [reasonVixCalm]) := by
  rw [vixBlock_map] at h
  cases hg : vixPairs g with
  | error e => rw [hg] at h; cases h
  | ok ps =>
    rw [hg] at h
    simp only [Except.map] at h
    cases h
    rcases vixPairs_cases g ps hg with h' | h' | h' <;> subst h' <;> decide

/-- C1: the score returned by `calculate_signal` is the sum of the
scoreDeltas of exactly the fired rules, the reasons list is exactly the
fired rules' reason strings in order (so its length is the number of
rules whose precondition held), and the score is recovered by summing the
rule-table deltas of the reason strings — no hidden contributions. -/
theorem calculate_signal_score_matches_reasons (d : DataMap) (s : ℤ) (r : List String)
    (h : calculate_signal d = Except.ok (s, r)) :
    ∃ ps, firedRules d = Except.ok ps ∧ s = (ps.map Prod.fst).sum ∧
      r = ps.map Prod.snd ∧ r.length = ps.length ∧ s = (r.map reasonDelta).sum := by
  rw [calculate_signal_map] at h
  cases hf : firedRules d with
  | error e => rw [hf] at h; cases h
  | ok ps =>
    rw [hf] at h
    simp only [Except.map, Except.ok.injEq] at h
    have hs : s = (ps.map Prod.fst).sum := (congrArg Prod.fst h).symm
    have hr : r = ps.map Prod.snd := (congrArg Prod.snd h).symm
    have hdelta : ∀ q ∈ ps, reasonDelta q.2 = q.1 := by
      obtain ⟨l1, l2, l3, h1, h2, h3, rfl⟩ := (firedRules_ok_iff d ps).1 hf
      intro q hq
      rcases List.mem_append.1 hq with hq' | hq'
      · rcases List.mem_append.1 hq' with hq'' | hq''
        · exact reasonDelta_table q (goldPairs_sub _ _ h1 q hq'')
        · exact reasonDelta_table q (dxyPairs_sub _ _ h2 q hq'')
      · exact reasonDelta_table q (vixPairs_sub _ _ h3 q hq')
    refine ⟨ps, rfl, hs, hr, ?_, ?_⟩
    · rw [hr, List.length_map]
    · rw [hs, hr, sum_map_reasonDelta ps hdelta]

/-- Witness for C1 at a concrete input: only the VIX series present, with
latest close 25, firing exactly the high-fear rule. -/
theorem calculate_signal_score_matches_reasons_witness :
    ∃ ps, firedRules ⟨none, none, none, some ⟨[25], []⟩, none⟩ = Except.ok ps ∧
      (2 : ℤ) = (ps.map Prod.fst).sum ∧ [reasonVixFear] = ps.map Prod.snd ∧
      [reasonVixFear].length = ps.length ∧
      (2 : ℤ) = ([reasonVixFear].map reasonDelta).sum :=
  calculate_signal_score_matches_reasons ⟨none, none, none, some ⟨[25], []⟩, none⟩ 2
    [reasonVixFear] (by decide)

/-- C4: the two members of each mutually exclusive rule pair never both
appear in the reasons list of a single evaluation. -/
theorem reason_pairs_mutually_exclusive (d : DataMap) (s : ℤ) (r : List String)
    (h : calculate_signal d = Except.ok (s, r)) :
    ¬(reasonBullish ∈ r ∧ reasonBearish ∈ r) ∧
      ¬(reasonOversold ∈ r ∧ reasonOverbought ∈ r) ∧
      ¬(reasonDollarWeak ∈ r ∧ reasonDollarStrong ∈ r) ∧
      ¬(reasonVixFear ∈ r ∧ reasonVixCalm ∈ r) := by
  obtain ⟨pg, px, pv, h1, h2, h3, heq⟩ := (calculate_signal_ok_iff d (s, r)).1 h
  have hr : r = pg.2 ++ px.2 ++ pv.2 := by simpa using congrArg Prod.snd heq
  subst hr
  rcases goldBlock_cases _ _ h1 with h' | h' | h' | h' | h' | h' | h' <;> subst h' <;>
    rcases dxyBlock_cases _ _ h2 with h'' | h'' | h'' <;> subst h'' <;>
      rcases vixBlock_cases _ _ h3 with h3' | h3' | h3' <;> subst h3' <;> decide

/-- Witness for C4 at a concrete input: gold flat and VIX high. -/
theorem reason_pairs_mutually_exclusive_witness :
    ¬(reasonBullish ∈ [reasonBearish, reasonVixFear] ∧
        reasonBearish ∈ [reasonBearish, reasonVixFear]) ∧
      ¬(reasonOversold ∈ [reasonBearish, reasonVixFear] ∧
        reasonOverbought ∈ [reasonBearish, reasonVixFear]) ∧
      ¬(reasonDollarWeak ∈ [reasonBearish, reasonVixFear] ∧
        reasonDollarStrong ∈ [reasonBearish, reasonVixFear]) ∧
      ¬(reasonVixFear ∈ [reasonBearish, reasonVixFear] ∧
        reasonVixCalm ∈ [reasonBearish, reasonVixFear]) :=
  reason_pairs_mutually_exclusive
    ⟨some ⟨List.replicate 60 (100 : ℚ), []⟩, none, none, some ⟨[25], []⟩, none⟩ 0
    [reasonBearish, reasonVixFear] (by decide)

/-- Counterexample to C9: an evaluation whose score is 7, outside
[-5, +5]. -/
theorem score_seven_attainable :
    calculate_signal maxScoreData =
        Except.ok (7, [reasonBullish, reasonOversold, reasonDollarWeak, reasonVixFear]) ∧
      ¬((-5 : ℤ) ≤ 7 ∧ (7 : ℤ) ≤ 5) := by
  constructor
  · decide
  · decide

/-- C9 as amended: the score of every successful evaluation lies in
[-6, +7], the exact bounds imposed by the fixed rule set. -/
theorem score_bounds (d : DataMap) (s : ℤ) (r : List String)
    (h : calculate_signal d = Except.ok (s, r)) : -6 ≤ s ∧ s ≤ 7 := by
  obtain ⟨pg, px, pv, h1, h2, h3, heq⟩ := (calculate_signal_ok_iff d (s, r)).1 h
  have hs : s = pg.1 + px.1 + pv.1 := by simpa using congrArg Prod.fst heq
  subst hs
  rcases goldBlock_cases _ _ h1 with h' | h' | h' | h' | h' | h' | h' <;> subst h' <;>
    rcases dxyBlock_cases _ _ h2 with h'' | h'' | h'' <;> subst h'' <;>
      rcases vixBlock_cases _ _ h3 with h3' | h3' | h3' <;> subst h3' <;> decide

/-- Witness for the amended C9 at a concrete input. -/
theorem score_bounds_witness : (-6 : ℤ) ≤ 2 ∧ (2 : ℤ) ≤ 7 :=
  score_bounds ⟨none, none, none, some ⟨[25], []⟩, none⟩ 2 [reasonVixFear] (by decide)

/-- The indexer `iloc[-1]` succeeds on every non-empty series. -/
theorem ilocLast_ok_of_ne (l : List ℚ) (h : l ≠ []) : ∃ x, ilocLast l = Except.ok x := by
  rw [ilocLast]
  cases hl : l.getLast? with
  | none => exact absurd (List.getLast?_eq_none_iff.1 hl) h
  | some x => exact ⟨x, rfl⟩

/-- The indexer `iloc[0]` succeeds on every non-empty series. -/
theorem ilocFirst_ok_of_ne (l : List ℚ) (h : l ≠ []) : ∃ x, ilocFirst l = Except.ok x := by
  rw [ilocFirst]
  cases hl : l.head? with
  | none => exact absurd (List.head?_eq_none_iff.1 hl) h
  | some x => exact ⟨x, rfl⟩

/-- The indexer `iloc[-k]` succeeds whenever the series has at least `k`
samples. -/
theorem ilocFromEnd_ok (l : List ℚ) (k : ℕ) (hk : 0 < k) (hle : k ≤ l.length) :
    ∃ x, ilocFromEnd l k = Except.ok x := by
  rw [ilocFromEnd, if_pos ⟨hk, hle⟩]
  cases hg : l.get? (l.length - k) with
  | none =>
    rw [List.get?_eq_getElem?] at hg
    have := List.getElem?_eq_none_iff.1 hg
    omega
  | some x => exact ⟨x, rfl⟩

/-- The gold section succeeds whenever its series, if present, is
non-empty. -/
theorem goldBlock_ok_of (g : Option Frame) (h : ∀ f, g = some f → f.close ≠ []) :
    ∃ p, goldBlock g = Except.ok p := by
  cases g with
  | none => exact ⟨(0, []), rfl⟩
  | some f =>
    obtain ⟨c, hc⟩ := ilocLast_ok_of_ne f.close (h f rfl)
    rw [goldBlock, hc]
    exact ⟨_, rfl⟩

/-- The dollar-index section succeeds whenever its series, if present, is
non-empty. -/
theorem dxyBlock_ok_of (g : Option Frame) (h : ∀ f, g = some f → f.close ≠ []) :
    ∃ p, dxyBlock g = Except.ok p := by
  cases g with
  | none => exact ⟨(0, []), rfl⟩
  | some f =>
    obtain ⟨c, hc⟩ := ilocLast_ok_of_ne f.close (h f rfl)
    by_cases hlen : f.close.length > 24
    · obtain ⟨x, hx⟩ := ilocFromEnd_ok f.close 24 (by omega) (by omega)
      refine ⟨if c < x then (2, [reasonDollarWeak]) else (-2, [reasonDollarStrong]), ?_⟩
      rw [dxyBlock, hc, if_pos hlen, hx]
      show (if c < x then Except.ok ((2 : ℤ), [reasonDollarWeak])
          else Except.ok ((-2 : ℤ), [reasonDollarStrong])) = _
      split <;> simp
    · obtain ⟨x, hx⟩ := ilocFirst_ok_of_ne f.close (h f rfl)
      refine ⟨if c < x then (2, [reasonDollarWeak]) else (-2, [reasonDollarStrong]), ?_⟩
      rw [dxyBlock, hc, if_neg hlen, hx]
      show (if c < x then Except.ok ((2 : ℤ), [reasonDollarWeak])
          else Except.ok ((-2 : ℤ), [reasonDollarStrong])) = _
      split <;> simp

/-- The VIX section succeeds whenever its series, if present, is
non-empty. -/
theorem vixBlock_ok_of (g : Option Frame) (h : ∀ f, g = some f → f.close ≠ []) :
    ∃ p, vixBlock g = Except.ok p := by
  cases g with
  | none => exact ⟨(0, []), rfl⟩
  | some f =>
    obtain ⟨c, hc⟩ := ilocLast_ok_of_ne f.close (h f rfl)
    refine ⟨if c > 20 then (2, [reasonVixFear])
      else if c < 13 then (-1, [reasonVixCalm]) else (0, []), ?_⟩
    rw [vixBlock, hc]
    show (if c > 20 then Except.ok ((2 : ℤ), [reasonVixFear])
        else if c < 13 then Except.ok ((-1 : ℤ), [reasonVixCalm])
        else Except.ok ((0 : ℤ), [])) = _
    split <;> [simp; split <;> simp]

/-- C5: whenever every present instrument series is non-empty (the data
model guarantees at least one sample, and the retrieval layer drops empty
downloads), `calculate_signal` returns a result for any pattern of absent
series; in particular, with all five instruments missing it returns score
0 and no reasons. -/
theorem calculate_signal_total (d : DataMap)
    (hg : ∀ f, d.gold = some f → f.close ≠ [])
    (hx : ∀ f, d.dxy = some f → f.close ≠ [])
    (hv : ∀ f, d.vix = some f → f.close ≠ []) :
    (∃ p, calculate_signal d = Except.ok p) ∧
      (d.gold = none → d.dxy = none → d.tnx = none → d.vix = none → d.spx = none →
        calculate_signal d = Except.ok (0, [])) := by
  constructor
  · obtain ⟨pg, hpg⟩ := goldBlock_ok_of d.gold hg
    obtain ⟨px, hpx⟩ := dxyBlock_ok_of d.dxy hx
    obtain ⟨pv, hpv⟩ := vixBlock_ok_of d.vix hv
    exact ⟨_, (calculate_signal_ok_iff d _).2 ⟨pg, px, pv, hpg, hpx, hpv, rfl⟩⟩
  · intro h1 h2 h3 h4 h5
    obtain ⟨g, x, t, v, sp⟩ := d
    simp only at h1 h2 h3 h4 h5
    subst h1; subst h2; subst h3; subst h4; subst h5
    decide

/-- Witness for C5 at the all-missing input. -/
theorem calculate_signal_total_witness :
    (∃ p, calculate_signal ⟨none, none, none, none, none⟩ = Except.ok p) ∧
      ((⟨none, none, none, none, none⟩ : DataMap).gold = none →
        (⟨none, none, none, none, none⟩ : DataMap).dxy = none →
        (⟨none, none, none, none, none⟩ : DataMap).tnx = none →
        (⟨none, none, none, none, none⟩ : DataMap).vix = none →
        (⟨none, none, none, none, none⟩ : DataMap).spx = none →
        calculate_signal ⟨none, none, none, none, none⟩ = Except.ok (0, [])) :=
  calculate_signal_total ⟨none, none, none, none, none⟩
    (fun _ h => nomatch h) (fun _ h => nomatch h) (fun _ h => nomatch h)

/-- C7: when the VIX series is present, the evaluation splits on its
latest close: strictly above 20 adds +2 with the high-fear reason,
strictly below 13 adds −1 with the complacency reason, and in the dead
zone 13 ≤ v ≤ 20 the VIX contributes nothing. -/
theorem vix_rule_trichotomy (d : DataMap) (f : Frame) (s : ℤ) (r : List String)
    (hvix : d.vix = some f) (h : calculate_signal d = Except.ok (s, r)) :
    ∃ v sg rg sx rx, ilocLast f.close = Except.ok v ∧
      goldBlock d.gold = Except.ok (sg, rg) ∧ dxyBlock d.dxy = Except.ok (sx, rx) ∧
      (20 < v → s = sg + sx + 2 ∧ r = rg ++ rx ++ [reasonVixFear]) ∧
      (v < 13 → s = sg + sx - 1 ∧ r = rg ++ rx ++ [reasonVixCalm]) ∧
      (13 ≤ v → v ≤ 20 → s = sg + sx ∧ r = rg ++ rx) := by
  obtain ⟨pg, px, pv, h1, h2, h3, heq⟩ := (calculate_signal_ok_iff d (s, r)).1 h
  rw [hvix, vixBlock] at h3
  cases hl : ilocLast f.close with
  | error e => rw [hl] at h3; cases h3
  | ok v =>
    rw [hl] at h3
    simp only at h3
    have hs : s = pg.1 + px.1 + pv.1 := by simpa using congrArg Prod.fst heq
    have hr : r = pg.2 ++ px.2 ++ pv.2 := by simpa using congrArg Prod.snd heq
    refine ⟨v, pg.1, pg.2, px.1, px.2, rfl, h1, h2, ?_, ?_, ?_⟩
    · intro hv20
      rw [if_pos hv20] at h3
      cases h3
      exact ⟨hs, hr⟩
    · intro hv13
      have hn : ¬v > 20 := by linarith
      rw [if_neg hn, if_pos hv13] at h3
      cases h3
      exact ⟨by rw [hs]; ring, hr⟩
    · intro hge hle
      have hn1 : ¬v > 20 := not_lt.2 hle
      have hn2 : ¬v < 13 := not_lt.2 hge
      rw [if_neg hn1, if_neg hn2] at h3
      cases h3
      exact ⟨by rw [hs]; ring, by rw [hr]; simp⟩

/-- Witness for C7 at a concrete dead-zone input: VIX latest close 16. -/
theorem vix_rule_trichotomy_witness :
    ∃ v sg rg sx rx, ilocLast (Frame.mk [16] []).close = Except.ok v ∧
      goldBlock none = Except.ok (sg, rg) ∧ dxyBlock none = Except.ok (sx, rx) ∧
      (20 < v → (0 : ℤ) = sg + sx + 2 ∧ ([] : List String) = rg ++ rx ++ [reasonVixFear]) ∧
      (v < 13 → (0 : ℤ) = sg + sx - 1 ∧ ([] : List String) = rg ++ rx ++ [reasonVixCalm]) ∧
      (13 ≤ v → v ≤ 20 → (0 : ℤ) = sg + sx ∧ ([] : List String) = rg ++ rx) :=
  vix_rule_trichotomy ⟨none, none, none, some ⟨[16], []⟩, none⟩ ⟨[16], []⟩ 0 [] rfl (by decide)

/-- The 50-hour moving average of a series with fewer than 50 samples is
NaN (pandas `rolling(50).mean()` with an incomplete window). -/
theorem ma50Last_nan (l : List ℚ) (h : l.length < 50) : ma50Last l = PVal.nan := by
  rw [ma50Last, rollingMeanLast, if_pos (by simpa using h)]

/-- Counterexample to C2: with a present gold series of one sample
(fewer than 50), the bearish moving-average rule fires: the NaN moving
average compares false under `>`, so the else branch contributes −2 and
emits the bearish reason. -/
theorem gold_short_series_counterexample :
    (Frame.mk [100] []).close.length < 50 ∧
      calculate_signal ⟨some ⟨[100], []⟩, none, none, none, none⟩ =
        Except.ok (-2, [reasonBearish]) := by
  constructor
  · decide
  · decide

/-- C2 as amended: when the gold series is present with fewer than 50
samples, the bullish moving-average rule indeed never fires, but the
bearish rule always fires (−2 with the bearish reason), because the NaN
moving average makes `current_price > ma50` false. -/
theorem gold_short_series_bearish (d : DataMap) (f : Frame) (s : ℤ) (r : List String)
    (hf : d.gold = some f) (hlen : f.close.length < 50)
    (h : calculate_signal d = Except.ok (s, r)) :
    reasonBearish ∈ r ∧ reasonBullish ∉ r := by
  obtain ⟨pg, px, pv, h1, h2, h3, heq⟩ := (calculate_signal_ok_iff d (s, r)).1 h
  have hr : r = pg.2 ++ px.2 ++ pv.2 := by simpa using congrArg Prod.snd heq
  subst hr
  rw [hf, goldBlock] at h1
  cases hl : ilocLast f.close with
  | error e => rw [hl] at h1; cases h1
  | ok c =>
    rw [hl] at h1
    simp only at h1
    rw [ma50Last_nan f.close hlen] at h1
    rw [show PVal.gt (PVal.fin c) PVal.nan = false from rfl] at h1
    simp only [Bool.false_eq_true, if_false] at h1
    split at h1 <;> [skip; split at h1] <;> cases h1 <;>
      rcases dxyBlock_cases _ _ h2 with hx | hx | hx <;> subst hx <;>
        rcases vixBlock_cases _ _ h3 with hv | hv | hv <;> subst hv <;> decide

/-- Witness for the amended C2 at a concrete one-sample gold series. -/
theorem gold_short_series_bearish_witness :
    reasonBearish ∈ [reasonBearish] ∧ reasonBullish ∉ [reasonBearish] :=
  gold_short_series_bearish ⟨some ⟨[100], []⟩, none, none, none, none⟩ ⟨[100], []⟩ (-2)
    [reasonBearish] rfl (by decide) (by decide)

/-- Counterexample to C3: over a flat 15-sample gold series both rolling
averages are 0, and the computed RSI is NaN — not 50 — because the
implementation has no explicit degenerate branch and `0/0` propagates
NaN. -/
theorem rsi_flat_series_nan :
    avgGainLast (List.replicate 15 (100 : ℚ)) = PVal.fin 0 ∧
      avgLossLast (List.replicate 15 (100 : ℚ)) = PVal.fin 0 ∧
      rsiLast (List.replicate 15 (100 : ℚ)) = PVal.nan ∧
      rsiLast (List.replicate 15 (100 : ℚ)) ≠ PVal.fin 50 := by
  refine ⟨by decide, by decide, by decide, by decide⟩

/-- C3 as amended: with at least 15 samples, if the rolling average loss
is 0 and the rolling average gain is positive the RSI evaluates to 100
(via `x/0 = +Inf`, not an explicit branch); if both averages are 0 the
RSI is NaN rather than 50, and over such a flat tail neither RSI rule
fires (NaN compares false against both thresholds). -/
theorem rsi_degenerate_cases (l : List ℚ) (_hlen : 15 ≤ l.length) :
    (∀ q : ℚ, avgLossLast l = PVal.fin 0 → avgGainLast l = PVal.fin q → 0 < q →
      rsiLast l = PVal.fin 100) ∧
    (avgLossLast l = PVal.fin 0 → avgGainLast l = PVal.fin 0 →
      rsiLast l = PVal.nan ∧ PVal.lt (rsiLast l) (PVal.fin 30) = false ∧
        PVal.gt (rsiLast l) (PVal.fin 70) = false) := by
  constructor
  · intro q hL hG hq
    rw [rsiLast, hL, hG]
    have h1 : PVal.div (PVal.fin q) (PVal.fin 0) = PVal.pinf := by
      simp [PVal.div, hq]
    rw [h1]
    decide
  · intro hL hG
    have hnan : rsiLast l = PVal.nan := by
      rw [rsiLast, hL, hG]
      decide
    exact ⟨hnan, by rw [hnan]; rfl, by rw [hnan]; rfl⟩

/-- Witness for the amended C3 at a flat 15-sample series. -/
theorem rsi_degenerate_cases_witness :
    ((∀ q : ℚ, avgLossLast (List.replicate 15 (100 : ℚ)) = PVal.fin 0 →
        avgGainLast (List.replicate 15 (100 : ℚ)) = PVal.fin q → 0 < q →
        rsiLast (List.replicate 15 (100 : ℚ)) = PVal.fin 100) ∧
      (avgLossLast (List.replicate 15 (100 : ℚ)) = PVal.fin 0 →
        avgGainLast (List.replicate 15 (100 : ℚ)) = PVal.fin 0 →
        rsiLast (List.replicate 15 (100 : ℚ)) = PVal.nan ∧
          PVal.lt (rsiLast (List.replicate 15 (100 : ℚ))) (PVal.fin 30) = false ∧
          PVal.gt (rsiLast (List.replicate 15 (100 : ℚ))) (PVal.fin 70) = false)) :=
  rsi_degenerate_cases (List.replicate 15 (100 : ℚ)) (by decide)

/-- Counterexample to C6: with exactly 25 samples, `len(df) > 24` holds,
so the comparison value is `iloc[-24]` — the sample at index 1 (here 90),
not the first sample (105).  With latest close 100 the strengthening rule
fires instead of the claimed weakening rule. -/
theorem dxy_25_sample_counterexample :
    dxy25Frame.close.length = 25 ∧ dxy25Frame.close.head? = some 105 ∧
      dxy25Frame.close.getLast? = some 100 ∧
      calculate_signal ⟨none, some dxy25Frame, none, none, none⟩ =
        Except.ok (-2, [reasonDollarStrong]) := by
  refine ⟨by decide, by decide, by decide, by decide⟩

/-- C6 as amended: the fallback to the series' first sample applies only
to series of at most 24 samples.  For a dollar-index series of exactly 24
samples with first close 105 and latest close 100, the weakening rule
fires (+2 with the weakening reason) via that fallback. -/
theorem dxy_24_sample_fallback (f : Frame) (hlen : f.close.length = 24)
    (hh : f.close.head? = some 105) (hl : f.close.getLast? = some 100) :
    calculate_signal ⟨none, some f, none, none, none⟩ =
      Except.ok (2, [reasonDollarWeak]) := by
  have h1 : ilocLast f.close = Except.ok 100 := by rw [ilocLast, hl]
  have h2 : ilocFirst f.close = Except.ok 105 := by rw [ilocFirst, hh]
  have hlt : ¬f.close.length > 24 := by omega
  have hdxy : dxyBlock (some f) = Except.ok (2, [reasonDollarWeak]) := by
    rw [dxyBlock, h1, if_neg hlt, h2]
    show (if (100 : ℚ) < 105 then Except.ok ((2 : ℤ), [reasonDollarWeak])
        else Except.ok ((-2 : ℤ), [reasonDollarStrong])) = _
    rw [if_pos (by norm_num)]
  exact (calculate_signal_ok_iff _ _).2
    ⟨(0, []), (2, [reasonDollarWeak]), (0, []), rfl, hdxy, rfl, by decide⟩

/-- Witness for the amended C6 at a concrete 24-sample series. -/
theorem dxy_24_sample_fallback_witness :
    calculate_signal ⟨none, some dxy24Frame, none, none, none⟩ =
      Except.ok (2, [reasonDollarWeak]) :=
  dxy_24_sample_fallback dxy24Frame (by decide) (by decide) (by decide)

/-- The gold section reads only the `Close` column. -/
theorem goldBlock_close_congr (o1 o2 : Option Frame)
    (h : o1.map Frame.close = o2.map Frame.close) : goldBlock o1 = goldBlock o2 := by
  cases o1 <;> cases o2 <;> simp_all [goldBlock]

/-- The dollar-index section reads only the `Close` column. -/
theorem dxyBlock_close_congr (o1 o2 : Option Frame)
    (h : o1.map Frame.close = o2.map Frame.close) : dxyBlock o1 = dxyBlock o2 := by
  cases o1 <;> cases o2 <;> simp_all [dxyBlock]

/-- The VIX section reads only the `Close` column. -/
theorem vixBlock_close_congr (o1 o2 : Option Frame)
    (h : o1.map Frame.close = o2.map Frame.close) : vixBlock o1 = vixBlock o2 := by
  cases o1 <;> cases o2 <;> simp_all [vixBlock]

/-- C10: the evaluation depends only on the `Close` column of each
present instrument: two inputs with the same presence pattern and equal
`Close` columns, however their other data-frame columns differ, produce
the same (score, reasons). -/
theorem close_columns_determine_signal (d1 d2 : DataMap)
    (hg : d1.gold.map Frame.close = d2.gold.map Frame.close)
    (hx : d1.dxy.map Frame.close = d2.dxy.map Frame.close)
    (_ht : d1.tnx.map Frame.close = d2.tnx.map Frame.close)
    (hv : d1.vix.map Frame.close = d2.vix.map Frame.close)
    (_hs : d1.spx.map Frame.close = d2.spx.map Frame.close) :
    calculate_signal d1 = calculate_signal d2 := by
  rw [calculate_signal, calculate_signal, goldBlock_close_congr _ _ hg,
    dxyBlock_close_congr _ _ hx, vixBlock_close_congr _ _ hv]

/-- Witness for C10 at two concrete inputs differing only in non-Close
columns. -/
theorem close_columns_determine_signal_witness :
    calculate_signal extraColsLeft = calculate_signal extraColsRight :=
  close_columns_determine_signal extraColsLeft extraColsRight rfl rfl rfl rfl rfl

/-- Unfolding of `psum` over a cons. -/
theorem psum_cons (a : PVal) (l : List PVal) : psum (a :: l) = PVal.add a (psum l) := rfl

/-- Sum of `n` copies of a finite value. -/
theorem psum_replicate_fin (n : ℕ) (c : ℚ) :
    psum (List.replicate n (PVal.fin c)) = PVal.fin (n * c) := by
  induction n with
  | zero => simp [psum]
  | succ n ih =>
    rw [List.replicate_succ, psum_cons, ih]
    show PVal.fin (c + n * c) = PVal.fin ((n + 1 : ℕ) * c)
    congr 1
    push_cast
    ring

/-- The rolling mean of a long-enough all-zero series is 0. -/
theorem rollingMeanLast_replicate_zero (n k : ℕ) (hk0 : 0 < k) (hk : k ≤ n) :
    rollingMeanLast (List.replicate n (PVal.fin 0)) k = PVal.fin 0 := by
  rw [rollingMeanLast, List.length_replicate, if_neg (by omega), List.drop_replicate,
    psum_replicate_fin]
  have hkq : ((k : ℚ)) ≠ 0 := by exact_mod_cast hk0.ne'
  simp [PVal.div, hkq]

/-- The 50-hour moving average of 60 identical closes is that close. -/
theorem ma50Last_replicate (c : ℚ) : ma50Last (List.replicate 60 c) = PVal.fin c := by
  rw [ma50Last, List.map_replicate, rollingMeanLast, List.length_replicate,
    if_neg (by norm_num), List.drop_replicate, psum_replicate_fin]
  show PVal.div (PVal.fin ((50 : ℕ) * c)) (PVal.fin (50 : ℕ)) = PVal.fin c
  have h50 : ((50 : ℕ) : ℚ) ≠ 0 := by norm_num
  simp only [PVal.div, if_neg h50]
  congr 1
  push_cast
  ring

/-- Successive differences of identical closes: a leading NaN followed by
zeros. -/
theorem zipWith_diff_replicate (n : ℕ) (c : ℚ) :
    List.zipWith (fun a b => PVal.fin (b - a)) (List.replicate (n + 1) c)
        (List.replicate n c) =
      List.replicate n (PVal.fin 0) := by
  induction n with
  | zero => rfl
  | succ n ih =>
    show List.zipWith (fun a b => PVal.fin (b - a)) (c :: List.replicate (n + 1) c)
        (c :: List.replicate n c) = List.replicate (n + 1) (PVal.fin 0)
    rw [List.zipWith_cons_cons, ih]
    rw [List.replicate_succ]
    congr 1
    rw [sub_self]

theorem diffList_replicate (n : ℕ) (c : ℚ) :
    diffList (List.replicate (n + 1) c) = PVal.nan :: List.replicate n (PVal.fin 0) := by
  rw [List.replicate_succ]
  simp only [diffList]
  rw [← List.replicate_succ, zipWith_diff_replicate]

/-- The gains of a flat series are all zero. -/
theorem gainList_replicate (n : ℕ) (c : ℚ) :
    gainList (List.replicate (n + 1) c) = List.replicate (n + 1) (PVal.fin 0) := by
  rw [gainList, diffList_replicate, List.map_cons, List.map_replicate]
  show PVal.fin 0 :: List.replicate n (PVal.fin 0) = _
  rw [List.replicate_succ]

/-- The losses of a flat series are all zero. -/
theorem lossList_replicate (n : ℕ) (c : ℚ) :
    lossList (List.replicate (n + 1) c) = List.replicate (n + 1) (PVal.fin 0) := by
  rw [lossList, diffList_replicate, List.map_cons, List.map_replicate, List.map_cons,
    List.map_replicate]
  show PVal.fin (-0) :: List.replicate n (PVal.fin (-0)) = _
  rw [List.replicate_succ, neg_zero]

/-- The RSI of 60 identical closes is NaN (`0/0` in the rs ratio). -/
theorem rsiLast_replicate_sixty (c : ℚ) : rsiLast (List.replicate 60 c) = PVal.nan := by
  have hg : gainList (List.replicate 60 c) = List.replicate 60 (PVal.fin 0) :=
    gainList_replicate 59 c
  have hl : lossList (List.replicate 60 c) = List.replicate 60 (PVal.fin 0) :=
    lossList_replicate 59 c
  rw [rsiLast, avgGainLast, avgLossLast, hg, hl,
    rollingMeanLast_replicate_zero 60 14 (by norm_num) (by norm_num)]
  decide

/-- The indexer `iloc[-1]` of a replicated series returns its element. -/
theorem ilocLast_replicate_sixty (c : ℚ) :
    ilocLast (List.replicate 60 c) = Except.ok c := by
  have h : (List.replicate 60 c).getLast? = some c := by
    show (List.replicate (59 + 1) c).getLast? = some c
    induction 59 with
    | zero => rfl
    | succ n ih =>
      rw [List.replicate_succ, List.replicate_succ, List.getLast?_cons_cons,
        ← List.replicate_succ]
      exact ih
  rw [ilocLast, h]

/-- C8: on a gold series of 60 identical closes the latest close equals
the 50-hour moving average, the strict `>` comparison fails, and the else
branch fires: −2 with the bearish-technical reason (the flat RSI is NaN,
so no RSI rule fires). -/
theorem gold_flat_sixty_bearish (c : ℚ) :
    calculate_signal ⟨some ⟨List.replicate 60 c, []⟩, none, none, none, none⟩ =
      Except.ok (-2, [reasonBearish]) := by
  have hgold : goldBlock (some ⟨List.replicate 60 c, []⟩) =
      Except.ok (-2, [reasonBearish]) := by
    rw [goldBlock, show Frame.close ⟨List.replicate 60 c, []⟩ = List.replicate 60 c from rfl,
      ilocLast_replicate_sixty]
    simp only
    rw [ma50Last_replicate, rsiLast_replicate_sixty]
    have hgt : PVal.gt (PVal.fin c) (PVal.fin c) = false := by
      simp [PVal.gt, PVal.lt]
    rw [hgt, show PVal.lt PVal.nan (PVal.fin 30) = false from rfl,
      show PVal.gt PVal.nan (PVal.fin 70) = false from rfl]
    simp
  exact (calculate_signal_ok_iff _ _).2
    ⟨(-2, [reasonBearish]), (0, []), (0, []), hgold, rfl, rfl, by decide⟩
